import Mathlib

/-!
Verification of the `crawl_sns` repository (a Playwright-based social-media
crawler) against its natural-language specification.

The Python sources are shallowly embedded: the pure record-processing parts
(numeric parsing of interaction counts, post-validity filtering, duplicate
detection, the progressive collection loops, the JSON writer's metadata, the
CLI exit behaviour, and the login-retry loop) become executable Lean
functions.  Browser/DOM interaction is abstracted as oracle inputs (the list
of records a scraping round returns, the outcome of a login attempt), and a
Python function that may let an exception escape returns an `Option`
(`none` = the exception propagates).

Conventions used throughout:
* Python `str` is Lean `String`, manipulated as `List Char`; only ASCII
  behaviour of `str.lower` / `str.strip` / `str.isdigit` / `\d` is modelled
  (every string the crawlers parse here is ASCII).
* Python `float` is modelled exactly: a parsed literal becomes an exact
  decimal — an integer mantissa with a power-of-ten scale (`PyFloat.finite`)
  — or `inf` / `nan`; IEEE-754 rounding is not modelled.  On every input
  exercised by the theorems below (short decimal literals and integers far
  below 2^53) the CPython double result is exact, so the model and CPython
  agree; theorems about plain digit strings are stated with a 15-digit bound
  to stay inside that range.
* Python dicts built by the scrapers (`post_data`) become a `Record`
  structure of optional fields; `dict.get` is `Option` access.
-/

namespace CrawlSns

/-- `src/src/models.py` `Post`: the normalized record of one scraped item
(pydantic model; the `main.py` copy omits `reposts`/`views` but is otherwise
identical). -/
structure Post where
  platform : String
  author : String
  content : String
  timestamp : String
  url : Option String := none
  likes : Option Int := none
  comments : Option Int := none
  reposts : Option Int := none
  shares : Option Int := none
  views : Option Int := none
deriving DecidableEq, Repr

/-- A scraped `post_data` dictionary: every field is best-effort and may be
absent (`dict.get` returns `None`). -/
structure Record where
  author : Option String := none
  content : Option String := none
  timestamp : Option String := none
  url : Option String := none
  likes : Option Int := none
  comments : Option Int := none
  shares : Option Int := none
deriving DecidableEq, Repr

/-! ### ASCII models of Python string primitives -/

/-- Python whitespace stripped by `str.strip()` (ASCII part). -/
def isPySpace (c : Char) : Bool :=
  c = ' ' || c = '\t' || c = '\n' || c = '\r' || c = '\x0b' || c = '\x0c'

/-- `str.strip()` on a char list. -/
def pyStripL (l : List Char) : List Char :=
  ((l.dropWhile isPySpace).reverse.dropWhile isPySpace).reverse

/-- The ASCII uppercase→lowercase table. -/
def asciiUpperLower : List (Char × Char) :=
  [('A', 'a'), ('B', 'b'), ('C', 'c'), ('D', 'd'), ('E', 'e'), ('F', 'f'),
   ('G', 'g'), ('H', 'h'), ('I', 'i'), ('J', 'j'), ('K', 'k'), ('L', 'l'),
   ('M', 'm'), ('N', 'n'), ('O', 'o'), ('P', 'p'), ('Q', 'q'), ('R', 'r'),
   ('S', 's'), ('T', 't'), ('U', 'u'), ('V', 'v'), ('W', 'w'), ('X', 'x'),
   ('Y', 'y'), ('Z', 'z')]

/-- ASCII `str.lower` on one character. -/
def charLower (c : Char) : Char :=
  match asciiUpperLower.find? (fun p => p.1 = c) with
  | some p => p.2
  | none => c

/-- `str.lower()` on a char list (ASCII). -/
def pyLowerL (l : List Char) : List Char := l.map charLower

/-- Python `str.isdigit()` (ASCII): non-empty and all digits. -/
def pyIsDigit (l : List Char) : Bool := !l.isEmpty && l.all Char.isDigit

/-- Base-10 value of a digit list (the "integer value" of a digit string). -/
def natVal (l : List Char) : Nat :=
  l.foldl (fun a c => 10 * a + (c.toNat - 48)) 0

/-- Truthiness of an optional string (`None` and `""` are falsy). -/
def pyTruthy : Option String → Bool
  | none => false
  | some s => !s.isEmpty

/-- Python `==` between a `str` and an optional value (`str == None` is `False`). -/
def strEqOpt (s : String) : Option String → Bool
  | none => false
  | some t => s = t

end CrawlSns

namespace CrawlSns

/-! ### C2: per-platform `_is_valid_post` -/

/-- `threads.py _is_valid_post`: `content = post_data.get("content", "")`,
`author = post_data.get("author", "")`;
valid iff `content and len(str(content).strip()) >= 1 and author and str(author) != "Unknown"`. -/
def threads_is_valid_post (r : Record) : Bool :=
  let content := r.content.getD ""
  let author := r.author.getD ""
  !content.isEmpty && (pyStripL content.data).length ≥ 1
    && !author.isEmpty && author ≠ "Unknown"

/-- `geeknews.py _is_valid_post`: `content = post_data.get("content")`;
valid iff `content and len(str(content).strip()) > 10` (the author is not
inspected at all). -/
def geeknews_is_valid_post (r : Record) : Bool :=
  pyTruthy r.content && (pyStripL (r.content.getD "").data).length > 10

/-- `x.py _is_valid_post`: valid iff
`content and len(str(content).strip()) > 15 and author and str(author) != "Unknown"`. -/
def x_is_valid_post (r : Record) : Bool :=
  pyTruthy r.content && (pyStripL (r.content.getD "").data).length > 15
    && pyTruthy r.author && (r.author.getD "") ≠ "Unknown"

/-- `linkedin.py _is_valid_post`: textually identical to the X filter. -/
def linkedin_is_valid_post (r : Record) : Bool :=
  pyTruthy r.content && (pyStripL (r.content.getD "").data).length > 15
    && pyTruthy r.author && (r.author.getD "") ≠ "Unknown"

/-! ### C4: `save_posts_to_file` metadata -/

/-- The metadata block written by `save_posts_to_file`. -/
structure Metadata where
  total_posts : Nat
  crawled_at : String
  platform : String
deriving DecidableEq, Repr

/-- The JSON document written by `save_posts_to_file` (posts are serialized
by `model_dump`, modelled as the `Post` values themselves). -/
structure OutputData where
  metadata : Metadata
  posts : List Post
deriving DecidableEq, Repr

/-- `src/src/utils.py save_posts_to_file` (the `main.py` copy builds the same
dictionary): `total_posts = len(posts)`, `crawled_at = datetime.now()`,
`platform = posts[0].platform if posts else "unknown"`.  The wall-clock
timestamp is passed in as `now`. -/
def save_posts_to_file (posts : List Post) (now : String) : OutputData :=
  { metadata :=
      { total_posts := posts.length
        crawled_at := now
        platform := match posts with
          | [] => "unknown"
          | p :: _ => p.platform }
    posts := posts }

/-! ### C5: CLI commands (`main.py threads` / `main.py linkedin`) -/

/-- Outcome of a CLI command: `typer.Exit(1)` without writing a file, or
normal completion with the JSON document written to a path. -/
inductive CmdResult where
  | exitOne
  | completed (path : String) (written : OutputData)
deriving DecidableEq, Repr

/-- `main.py threads` command body after `asyncio.run(crawl_threads(count))`
produced `posts`: `if not posts: raise typer.Exit(1)`; otherwise the output
path defaults to `data/threads_<ts>.json` and the file is written. -/
def threads_command (posts : List Post) (output : Option String) (ts : String) :
    CmdResult :=
  if posts.isEmpty then .exitOne
  else
    let path := output.getD ("data/threads_" ++ ts ++ ".json")
    .completed path (save_posts_to_file posts ts)

/-- `main.py linkedin` command body, same shape with the `linkedin` filename. -/
def linkedin_command (posts : List Post) (output : Option String) (ts : String) :
    CmdResult :=
  if posts.isEmpty then .exitOne
  else
    let path := output.getD ("data/linkedin_" ++ ts ++ ".json")
    .completed path (save_posts_to_file posts ts)

/-! ### C6: `BaseCrawler.crawl` -/

/-- `base.py BaseCrawler.crawl`: `posts = []`, then inside `try`:
`posts = await self._crawl_implementation(page, count)` with
`browser.close()` in a `finally`; any exception is caught by the outer
`except` which falls through to `return posts`.  `impl` is the outcome of
`_crawl_implementation` (`.error` = it raised), `closeFails` says whether
`browser.close()` in the `finally` raised.  If the implementation raised,
`posts` was never reassigned, so `[]` is returned; if only the close (or the
echo code after it) raised, the already-assigned posts are returned. -/
def BaseCrawler.crawl (impl : Except String (List Post)) (closeFails : Bool) :
    List Post :=
  match impl, closeFails with
  | .error _, _ => []
  | .ok ps, _ => ps

/-! ### C3 / C9 / C10: duplicate detection and the progressive collection loops -/

/-- The duplicate check shared verbatim by `reddit.py`, `x.py` and
`linkedin.py` `_progressive_post_collection`:
`any(existing.url == post_data.get("url") or (existing.content == post_data.get("content") and existing.author == post_data.get("author")) for existing in posts)`.
Note `existing.url` is optional, so `None == None` holds for two URL-less
records, and `str == None` is `False`. -/
def progressive_is_duplicate (posts : List Post) (r : Record) : Bool :=
  posts.any fun p =>
    p.url = r.url || (strEqOpt p.content r.content && strEqOpt p.author r.author)

/-- `reddit.py`: `Post(platform="reddit", author=post_data.get("author", "Unknown"), content=post_data.get("content", ""), timestamp=post_data.get("timestamp", ""), url=post_data.get("url"), likes=..., comments=..., shares=...)`. -/
def mkRedditPost (r : Record) : Post :=
  { platform := "reddit"
    author := r.author.getD "Unknown"
    content := r.content.getD ""
    timestamp := r.timestamp.getD ""
    url := r.url
    likes := r.likes
    comments := r.comments
    shares := r.shares }

/-- `x.py`: `Post(platform="x", **post_data)`.  Field defaults never fire on
records that passed `_is_valid_post` (pydantic would reject a dict missing a
required field, and the surrounding `try` skips such records; optional
fields default to `None` exactly as here). -/
def mkXPost (r : Record) : Post :=
  { platform := "x"
    author := r.author.getD ""
    content := r.content.getD ""
    timestamp := r.timestamp.getD ""
    url := r.url
    likes := r.likes
    comments := r.comments
    shares := r.shares }

/-- `linkedin.py`: `Post(platform="linkedin", **post_data)`. -/
def mkLinkedinPost (r : Record) : Post :=
  { mkXPost r with platform := "linkedin" }

/-- Inner `for post_data in current_posts` loop of
`reddit.py _progressive_post_collection`: break once `len(posts) >= target`,
skip duplicates, and append the built post otherwise (Reddit applies no
validity filter here). -/
def reddit_add (posts : List Post) (target : Nat) : List Record → List Post
  | [] => posts
  | r :: rest =>
    if posts.length ≥ target then posts
    else if progressive_is_duplicate posts r then reddit_add posts target rest
    else reddit_add (posts ++ [mkRedditPost r]) target rest

/-- Inner record loop of `x.py _progressive_post_collection`: like Reddit's
but a record is appended only `if not is_duplicate and self._is_valid_post(post_data)`. -/
def x_add (posts : List Post) (target : Nat) : List Record → List Post
  | [] => posts
  | r :: rest =>
    if posts.length ≥ target then posts
    else if progressive_is_duplicate posts r then x_add posts target rest
    else if x_is_valid_post r then x_add (posts ++ [mkXPost r]) target rest
    else x_add posts target rest

/-- Inner record loop of `linkedin.py _progressive_post_collection`
(identical to X's up to platform and validity filter names). -/
def linkedin_add (posts : List Post) (target : Nat) : List Record → List Post
  | [] => posts
  | r :: rest =>
    if posts.length ≥ target then posts
    else if progressive_is_duplicate posts r then linkedin_add posts target rest
    else if linkedin_is_valid_post r then linkedin_add (posts ++ [mkLinkedinPost r]) target rest
    else linkedin_add posts target rest

/-- `reddit.py _progressive_post_collection` outer loop:
`while len(posts) < target_count and scroll_attempts < self.max_scroll_attempts`,
process the records of the current page (`rounds` is the oracle of what
`_collect_posts` returns on each iteration), break once the target is
reached, otherwise scroll and increment `scroll_attempts`. -/
def reddit_collect (target maxScroll : Nat) :
    List (List Record) → List Post → Nat → List Post
  | [], posts, _ => posts
  | round :: rest, posts, scrollAttempts =>
    if posts.length < target ∧ scrollAttempts < maxScroll then
      let posts' := reddit_add posts target round
      if posts'.length ≥ target then posts'
      else reddit_collect target maxScroll rest posts' (scrollAttempts + 1)
    else posts

def reddit_progressive_post_collection (rounds : List (List Record))
    (target maxScroll : Nat) : List Post :=
  reddit_collect target maxScroll rounds [] 0

/-- `x.py _progressive_post_collection` outer loop: `scroll_attempts` is
incremented only on a round that added no new post
(`if new_posts_count == 0`), and the function ends with
`return posts[:target_count]`. -/
def x_collect (target maxScroll : Nat) :
    List (List Record) → List Post → Nat → List Post
  | [], posts, _ => posts
  | round :: rest, posts, scrollAttempts =>
    if posts.length < target ∧ scrollAttempts < maxScroll then
      let posts' := x_add posts target round
      if posts'.length ≥ target then posts'
      else if posts'.length = posts.length then
        x_collect target maxScroll rest posts' (scrollAttempts + 1)
      else x_collect target maxScroll rest posts' scrollAttempts
    else posts

def x_progressive_post_collection (rounds : List (List Record))
    (target maxScroll : Nat) : List Post :=
  (x_collect target maxScroll rounds [] 0).take target

/-- `linkedin.py _progressive_post_collection` outer loop (same shape as X's;
the see-more-button expansion step is browser-side and does not affect the
collected list). -/
def linkedin_collect (target maxScroll : Nat) :
    List (List Record) → List Post → Nat → List Post
  | [], posts, _ => posts
  | round :: rest, posts, scrollAttempts =>
    if posts.length < target ∧ scrollAttempts < maxScroll then
      let posts' := linkedin_add posts target round
      if posts'.length ≥ target then posts'
      else if posts'.length = posts.length then
        linkedin_collect target maxScroll rest posts' (scrollAttempts + 1)
      else linkedin_collect target maxScroll rest posts' scrollAttempts
    else posts

def linkedin_progressive_post_collection (rounds : List (List Record))
    (target maxScroll : Nat) : List Post :=
  (linkedin_collect target maxScroll rounds [] 0).take target

/-- `threads.py _generate_post_id`: the URL when truthy, otherwise
`f"{author}:{content[:100]}"`. -/
def threads_generate_post_id (r : Record) : String :=
  if pyTruthy r.url then r.url.getD ""
  else (r.author.getD "") ++ ":" ++ (r.content.getD "").take 100

/-- Inner element loop of `threads.py _extract_posts_incrementally`: for each
successfully extracted record, skip it when its generated id was already
seen, append it (recording the id) when valid, and return the whole
extraction immediately (`return all_posts`) once
`len(all_posts) >= target_count` — a check made only after appending.
Result: (collected records, seen ids, whether the early return fired). -/
def threads_extract_round (allPosts : List Record) (seen : List String)
    (target : Nat) : List Record → List Record × List String × Bool
  | [] => (allPosts, seen, false)
  | r :: rest =>
    let id := threads_generate_post_id r
    if id ∈ seen then threads_extract_round allPosts seen target rest
    else if threads_is_valid_post r then
      let all' := allPosts ++ [r]
      if all'.length ≥ target then (all', seen ++ [id], true)
      else threads_extract_round all' (seen ++ [id]) target rest
    else threads_extract_round allPosts seen target rest

/-- Outer scroll loop of `threads.py _extract_posts_incrementally`
(`for scroll_round in range(15)` — `rounds` is the oracle of the elements
found in each scroll round, so at most 15 entries are ever supplied): stop
after 3 consecutive rounds without a new post, or once 90% of the target is
reached (`len(all_posts) >= target_count * 0.9`, exact at the integer
boundaries exercised here), or on the early in-round return. -/
def threads_extract_loop (target : Nat) :
    List (List Record) → List Record → List String → Nat → List Record
  | [], allPosts, _, _ => allPosts
  | round :: rest, allPosts, seen, noNew =>
    match threads_extract_round allPosts seen target round with
    | (all', seen', hitTarget) =>
      if hitTarget then all'
      else
        let noNew' := if all'.length = allPosts.length then noNew + 1 else 0
        if noNew' ≥ 3 then all'
        else if 10 * all'.length ≥ 9 * target then all'
        else threads_extract_loop target rest all' seen' noNew'

def threads_extract_posts_incrementally (rounds : List (List Record))
    (target : Nat) : List Record :=
  threads_extract_loop target rounds [] [] 0

/-- `threads.py`: `Post(platform="threads", **post_data)` (defaults never
fire on records that passed `_is_valid_post`; pydantic rejects and the
`except` skips the record otherwise). -/
def mkThreadsPost (r : Record) : Post :=
  { platform := "threads"
    author := r.author.getD ""
    content := r.content.getD ""
    timestamp := r.timestamp.getD ""
    url := r.url
    likes := r.likes
    comments := r.comments
    shares := r.shares }

/-- `threads.py ThreadsCrawler._crawl_implementation` after the page loads:
the return value of `self._attempt_login(page)` is discarded (`loginOk`
influences nothing below), the incremental extraction runs, and
`for post_data in post_elements[:count]: if self._is_valid_post(post_data): posts.append(Post(platform="threads", **post_data))`. -/
def threads_crawl_implementation (loginOk : Bool) (rounds : List (List Record))
    (count : Nat) : List Post :=
  let _ := loginOk
  let post_elements := threads_extract_posts_incrementally rounds count
  ((post_elements.take count).filter threads_is_valid_post).map mkThreadsPost

/-! ### C8: behaviour on unrecoverable login failure -/

/-- `reddit.py RedditCrawler._crawl_implementation` skeleton: restore session
or log in; on login failure print
`"❌ Reddit 로그인 실패로 크롤링을 중단합니다."` (the `Bool` in the result)
and return `[]`; otherwise return what the progressive collection gathers. -/
def reddit_crawl_implementation (sessionOk loginOk : Bool)
    (collected : List Post) : List Post × Bool :=
  if sessionOk then (collected, false)
  else if loginOk then (collected, false)
  else ([], true)

end CrawlSns

namespace CrawlSns

/-- C2 counterexample record: long content, author literally `"Unknown"`. -/
def unknownAuthorRecord : Record :=
  { author := some "Unknown", content := some "a sufficiently long content text" }

/-- C2 amended-claim helper: "content is empty" as stated by the spec. -/
def emptyContent (r : Record) : Prop := r.content = none ∨ r.content = some ""

end CrawlSns

namespace CrawlSns

/-- A concrete record every platform filter accepts. -/
def goodThreadsRecord : Record :=
  { author := some "alice"
    content := some "hello world content of this post"
    timestamp := some "1h"
    url := some "https://threads.net/@alice/post/1" }

/-- C3 counterexample data: identical author and content, distinct URLs. -/
def c3rec1 : Record :=
  { author := some "alice"
    content := some "the same content text"
    timestamp := some "1h"
    url := some "https://threads.net/@alice/post/1" }

def c3rec2 : Record :=
  { c3rec1 with url := some "https://threads.net/@alice/post/2" }

/-- Number of collected posts without a URL. -/
def countNoneUrl (ps : List Post) : Nat := (ps.filter fun p => p.url.isNone).length

/-- A string with no digit character at all — the claim's "unparsable input". -/
def digitFree (l : List Char) : Prop := ∀ c ∈ l, c.isDigit = false

/-- No `i`/`I` character: rules out Python's `inf`/`infinity` float literals,
on which the interaction-count parsers raise `OverflowError` instead of
returning 0. -/
def iFree (l : List Char) : Prop := ∀ c ∈ l, c ≠ 'i' ∧ c ≠ 'I'

/-! ### C7: `threads.py _attempt_login`

`for attempt in range(self.login_retry_count)` (default
`THREADS_LOGIN_RETRY_COUNT` = 3): each iteration's observable outcome is an
oracle value; the list stands for the `range`, so its length is
`login_retry_count`.  On a failing non-final attempt the code waits a
randomized delay before the next one — `random.randint(3000, 5000)` ms after
a missing login button or a failed verification, `random.randint(2000, 4000)`
ms in the two exception handlers — except that a timeout while waiting for
the Instagram login form (`wait_for_selector('input[name="username"]')`)
executes a bare `continue` with no delay.  On the final failing attempt the
function returns `False`. -/

inductive LoginOutcome where
  /-- the attempt ran and `_verify_login_status` succeeded: return `True`. -/
  | success
  /-- no login button was found but the session is already live: return `True`. -/
  | noButtonLoggedIn
  /-- no login button and not logged in. -/
  | noButton
  /-- the Instagram login page load timed out: bare `continue`. -/
  | instaTimeout
  /-- the attempt completed but `_verify_login_status` failed. -/
  | verifyFail
  /-- a `PlaywrightTimeoutError` escaped to its handler. -/
  | timeoutError
  /-- any other exception escaped to the generic handler. -/
  | otherError
deriving DecidableEq, Repr

def isLoginSuccess : LoginOutcome → Bool
  | .success => true
  | .noButtonLoggedIn => true
  | _ => false

/-- The `random.randint` bounds (ms) of the wait performed after this failing
outcome before the next attempt; `none` = the code retries immediately. -/
def loginDelayRange : LoginOutcome → Option (Nat × Nat)
  | .noButton => some (3000, 5000)
  | .verifyFail => some (3000, 5000)
  | .timeoutError => some (2000, 4000)
  | .otherError => some (2000, 4000)
  | .instaTimeout => none
  | .success => none
  | .noButtonLoggedIn => none

/-- The retry loop of `_attempt_login`: returns (result, attempts performed,
inter-attempt delay ranges).  A successful attempt returns `True` at once; a
failing final attempt returns `False`. -/
def attempt_login : List LoginOutcome → Bool × Nat × List (Option (Nat × Nat))
  | [] => (false, 0, [])
  | o :: rest =>
    if isLoginSuccess o then (true, 1, [])
    else if rest.isEmpty then (false, 1, [])
    else
      ((attempt_login rest).1, (attempt_login rest).2.1 + 1,
        loginDelayRange o :: (attempt_login rest).2.2)

end CrawlSns

namespace CrawlSns

/-! ### C1: the numeric parsers

Python `float()` is modelled by `pyFloatL`: the CPython literal grammar
(optional sign, `inf`/`infinity`/`nan` case-insensitively, or a decimal
mantissa with optional fraction, underscores between digits and an optional
exponent).  A finite value is kept exactly as an integer mantissa `num` and
a power-of-ten `scale`, denoting `num / 10^scale`; `none` models a
`ValueError`.  `int(x)` truncates a finite value toward zero, raises a
caught `ValueError` on `nan`, and raises `OverflowError` — which neither
interaction-count parser's `except` clause lists — on `±inf`. -/

inductive PyFloat where
  | finite (num : Int) (scale : Nat)
  | inf
  | neginf
  | nan
deriving DecidableEq, Repr

/-- Case-insensitive comparison against the two spellings of a letter. -/
def ci (c x y : Char) : Bool := c = x || c = y

/-- `inf` / `infinity`, case-insensitive. -/
def isInfChars : List Char → Bool
  | [a, b, c] => ci a 'i' 'I' && ci b 'n' 'N' && ci c 'f' 'F'
  | [a, b, c, d, e, f, g, h] =>
    ci a 'i' 'I' && ci b 'n' 'N' && ci c 'f' 'F' && ci d 'i' 'I'
      && ci e 'n' 'N' && ci f 'i' 'I' && ci g 't' 'T' && ci h 'y' 'Y'
  | _ => false

/-- `nan`, case-insensitive. -/
def isNanChars : List Char → Bool
  | [a, b, c] => ci a 'n' 'N' && ci b 'a' 'A' && ci c 'n' 'N'
  | _ => false

/-- A run of digits with PEP-515 underscores (an underscore must sit between
two digits); returns the value, the digit count and the unconsumed rest. -/
def parseUDigitsAux : List Char → Nat → Nat → (Nat × Nat) × List Char
  | [], acc, cnt => ((acc, cnt), [])
  | c :: rest, acc, cnt =>
    if c.isDigit then parseUDigitsAux rest (10 * acc + (c.toNat - 48)) (cnt + 1)
    else if c = '_' then
      match rest with
      | d :: _ =>
        if d.isDigit then parseUDigitsAux rest acc cnt else ((acc, cnt), c :: rest)
      | [] => ((acc, cnt), c :: rest)
    else ((acc, cnt), c :: rest)

def parseUDigits : List Char → Option ((Nat × Nat) × List Char)
  | [] => none
  | c :: rest => if c.isDigit then some (parseUDigitsAux (c :: rest) 0 0) else none

/-- Strip one optional leading sign: returns (is-negative, rest). -/
def floatSign (l : List Char) : Bool × List Char :=
  if l.head? = some '+' || l.head? = some '-' then (l.head? = some '-', l.tail)
  else (false, l)

/-- Optional exponent applied to mantissa/scale; must consume the whole rest. -/
def parseExp (l : List Char) (v s : Nat) : Option (Nat × Nat) :=
  match l with
  | [] => some (v, s)
  | c :: rest =>
    if c = 'e' ∨ c = 'E' then
      let sg := floatSign rest
      match parseUDigits sg.2 with
      | some ((e, _), []) =>
        some (if sg.1 then (v, s + e) else (v * 10 ^ e, s))
      | _ => none
    else none

/-- Decimal mantissa (`d+[.d*]` or `.d+`) followed by an optional exponent;
the result denotes `value / 10^scale`. -/
def parseNumeric (l : List Char) : Option (Nat × Nat) :=
  match parseUDigits l with
  | some ((iv, _), r) =>
    match r with
    | '.' :: r2 =>
      match parseUDigits r2 with
      | some ((fv, fc), r3) => parseExp r3 (iv * 10 ^ fc + fv) fc
      | none => parseExp r2 iv 0
    | _ => parseExp r iv 0
  | none =>
    match l with
    | '.' :: r2 =>
      match parseUDigits r2 with
      | some ((fv, fc), r3) => parseExp r3 fv fc
      | none => none
    | _ => none

/-- CPython `float(str)` (`none` = `ValueError`). -/
def pyFloatL (l0 : List Char) : Option PyFloat :=
  let sg := floatSign (pyStripL l0)
  if isInfChars sg.2 then some (if sg.1 then .neginf else .inf)
  else if isNanChars sg.2 then some .nan
  else
    match parseNumeric sg.2 with
    | some (v, s) =>
      some (.finite (if sg.1 then -(v : Int) else (v : Int)) s)
    | none => none

/-- Python `int()` of the exact decimal `n / 10^s`: truncation toward zero
(`Int.tdiv` truncates toward zero). -/
def decTrunc (n : Int) (s : Nat) : Int := Int.tdiv n (10 ^ s)

/-- `int(float(part) * mult)` as both interaction-count parsers execute it:
an unparseable literal or `nan` raises `ValueError`, which the surrounding
`except (ValueError, ...)` turns into 0; `int(±inf)` raises `OverflowError`,
which neither `except` clause lists, so it propagates (`none`). -/
def pyIntOfFloatTimes (part : List Char) (mult : Nat) : Option Int :=
  match pyFloatL part with
  | some (.finite n s) => some (decTrunc (n * mult) s)
  | some .inf => none
  | some .neginf => none
  | some .nan => some 0
  | none => some 0

/-- The suffix group `([kKmM]?)` of the base helper's regex, matched at the
position right after the number. -/
def baseSuffix : List Char → Option Char
  | c :: _ => if c = 'k' ∨ c = 'K' ∨ c = 'm' ∨ c = 'M' then some c else none
  | [] => none

/-- Leftmost match of `(\d+(?:\.\d+)?)([kKmM]?)`: integer digits, fractional
digits (empty when the optional group did not match) and the suffix. -/
def baseScan : List Char → Option (List Char × List Char × Option Char)
  | [] => none
  | c :: rest =>
    if c.isDigit then
      let ds := List.takeWhile Char.isDigit (c :: rest)
      let r1 := List.dropWhile Char.isDigit (c :: rest)
      match r1 with
      | '.' :: r2 =>
        match r2 with
        | d :: _ =>
          if d.isDigit then
            some (ds, List.takeWhile Char.isDigit r2,
              baseSuffix (List.dropWhile Char.isDigit r2))
          else some (ds, [], baseSuffix r1)
        | [] => some (ds, [], baseSuffix r1)
      | _ => some (ds, [], baseSuffix r1)
    else baseScan rest

/-- `base.py BaseCrawler._extract_numbers_from_text`:
`text = text.lower().replace(",", "")`, search
`(\d+(?:\.\d+)?)([kKmM]?)`, return 0 on no match, else `float` the matched
number (a plain decimal literal, represented exactly as mantissa/scale),
multiply by 1000 for suffix `"k"` / 1000000 for `"m"` (only the lowercase
comparisons can fire after `lower()`), and truncate with `int`. -/
def extract_numbers_from_text (text : String) : Int :=
  let l := (pyLowerL text.data).filter (fun c => c ≠ ',')
  match baseScan l with
  | none => 0
  | some (ds, fs, suf) =>
    let mant : Nat := natVal ds * 10 ^ fs.length + natVal fs
    let mult : Nat := if suf = some 'k' then 1000
      else if suf = some 'm' then 1000000 else 1
    decTrunc (mant * mult) fs.length

/-- First match of `re.findall(r"\d+", ...)`. -/
def firstDigitRun : List Char → Option (List Char)
  | [] => none
  | c :: rest =>
    if c.isDigit then some (List.takeWhile Char.isDigit (c :: rest))
    else firstDigitRun rest

/-- `threads.py ThreadsCrawler._parse_interaction_count`: strip; a pure
digit string is `int`-ed directly; otherwise only the uppercase suffixes
`K`/`M`/`B` are recognized (`count_str.endswith("K")` …) with
`int(float(count_str[:-1]) * unit)`; otherwise the first `\d+` run is
returned, else 0.  `except (ValueError, IndexError)` yields 0, so an
`OverflowError` from `int(±inf)` propagates (`none`). -/
def threads_parse_interaction_count (count_str : String) : Option Int :=
  let l := pyStripL count_str.data
  if pyIsDigit l then some (natVal l : Int)
  else if l.getLast? = some 'K' then pyIntOfFloatTimes l.dropLast 1000
  else if l.getLast? = some 'M' then pyIntOfFloatTimes l.dropLast 1000000
  else if l.getLast? = some 'B' then pyIntOfFloatTimes l.dropLast 1000000000
  else
    match firstDigitRun l with
    | some ds => some (natVal ds : Int)
    | none => some 0

/-- `reddit.py RedditCrawler._parse_number_from_text`: `if not text: return 0`;
`text = text.lower().strip()`; if it contains `k`, remove every `k`
(`text.replace("k", "").strip()`) and `int(float(...) * 1000)` (likewise
`m` with 1000000); else keep only digits and dots
(`re.sub(r"[^\d.]", "", text)`) and `int(float(...))` when non-empty;
`except (ValueError, TypeError)` yields 0, so an `OverflowError` from
`int(±inf)` propagates (`none`). -/
def reddit_parse_number_from_text (text : String) : Option Int :=
  if text.data.isEmpty then some 0
  else
    let l := pyStripL (pyLowerL text.data)
    if l.contains 'k' then
      pyIntOfFloatTimes (pyStripL (l.filter (fun c => c ≠ 'k'))) 1000
    else if l.contains 'm' then
      pyIntOfFloatTimes (pyStripL (l.filter (fun c => c ≠ 'm'))) 1000000
    else
      let cleaned := l.filter (fun c => c.isDigit || c = '.')
      if cleaned.isEmpty then some 0
      else pyIntOfFloatTimes cleaned 1

end CrawlSns

/-- C2: the claim as stated is false: GeekNews' `_is_valid_post` accepts a
record whose author is `"Unknown"` (it never looks at the author), so not
every platform's filter rejects such records. -/
theorem C2_counterexample :
    CrawlSns.unknownAuthorRecord.author = some "Unknown" ∧
      CrawlSns.geeknews_is_valid_post CrawlSns.unknownAuthorRecord = true := by
  constructor
  · rfl
  · decide

/-- C2 (amended): every platform's `_is_valid_post` rejects a record with
empty content; Threads, X and LinkedIn additionally reject author
`"Unknown"`, while GeekNews checks only that the stripped content is longer
than 10 characters and ignores the author. -/
theorem C2_amended_validity (r : CrawlSns.Record) :
    (CrawlSns.emptyContent r →
      CrawlSns.threads_is_valid_post r = false ∧
      CrawlSns.geeknews_is_valid_post r = false ∧
      CrawlSns.x_is_valid_post r = false ∧
      CrawlSns.linkedin_is_valid_post r = false) ∧
    (r.author = some "Unknown" →
      CrawlSns.threads_is_valid_post r = false ∧
      CrawlSns.x_is_valid_post r = false ∧
      CrawlSns.linkedin_is_valid_post r = false) := by
  constructor
  · rintro (h | h) <;>
      simp [CrawlSns.threads_is_valid_post, CrawlSns.geeknews_is_valid_post,
        CrawlSns.x_is_valid_post, CrawlSns.linkedin_is_valid_post,
        CrawlSns.pyTruthy, h, CrawlSns.pyStripL, String.isEmpty]
  · intro h
    refine ⟨?_, ?_, ?_⟩ <;>
      simp [CrawlSns.threads_is_valid_post, CrawlSns.x_is_valid_post,
        CrawlSns.linkedin_is_valid_post, h, CrawlSns.pyTruthy]

/-- C2 amended-claim witness at a concrete record. -/
theorem C2_amended_validity_witness :
    CrawlSns.threads_is_valid_post { content := some "" } = false ∧
      CrawlSns.x_is_valid_post { author := some "Unknown", content := some "x" } = false := by
  refine ⟨((C2_amended_validity { content := some "" }).1 (Or.inr rfl)).1, ?_⟩
  exact ((C2_amended_validity { author := some "Unknown", content := some "x" }).2 rfl).2.1

/-- C4: `save_posts_to_file` always emits a metadata block whose
`total_posts` equals the length of the posts list (which is also the number
of serialized posts in the document) and whose `platform` is the first
post's platform, or `"unknown"` for an empty list. -/
theorem C4_save_metadata (posts : List CrawlSns.Post) (now : String) :
    (CrawlSns.save_posts_to_file posts now).metadata.total_posts = posts.length ∧
    (CrawlSns.save_posts_to_file posts now).metadata.total_posts =
      (CrawlSns.save_posts_to_file posts now).posts.length ∧
    (CrawlSns.save_posts_to_file posts now).metadata.platform =
      (match posts with
        | [] => "unknown"
        | p :: _ => p.platform) := by
  refine ⟨rfl, rfl, rfl⟩

/-- C5: for both platform CLI commands present in `main.py` (`threads` and
`linkedin`), a crawl with zero posts terminates with exit code 1 and writes
no file, and a crawl with at least one post never exits with code 1. -/
theorem C5_cli_exit_code (posts : List CrawlSns.Post) (output : Option String)
    (ts : String) :
    (posts = [] →
      CrawlSns.threads_command posts output ts = .exitOne ∧
      CrawlSns.linkedin_command posts output ts = .exitOne) ∧
    (posts ≠ [] →
      CrawlSns.threads_command posts output ts ≠ .exitOne ∧
      CrawlSns.linkedin_command posts output ts ≠ .exitOne) := by
  constructor
  · rintro rfl
    exact ⟨rfl, rfl⟩
  · intro h
    have hne : posts.isEmpty = false := by
      cases posts with
      | nil => exact absurd rfl h
      | cons a l => rfl
    constructor <;> simp [CrawlSns.threads_command, CrawlSns.linkedin_command, hne]

/-- C5 witness: concrete empty and non-empty runs. -/
theorem C5_cli_exit_code_witness :
    CrawlSns.threads_command [] none "t" = .exitOne ∧
      CrawlSns.linkedin_command
        [{ platform := "linkedin", author := "a", content := "c", timestamp := "t" }]
        none "t" ≠ .exitOne := by
  refine ⟨((C5_cli_exit_code [] none "t").1 rfl).1, ?_⟩
  exact ((C5_cli_exit_code
    [{ platform := "linkedin", author := "a", content := "c", timestamp := "t" }]
    none "t").2 (by simp)).2

/-- C6: `BaseCrawler.crawl` catches every exception raised inside
`_crawl_implementation` (and in the `finally` cleanup) and returns a list of
posts instead of propagating: the full result when the implementation
succeeded, and the initial empty list when it raised.  The function is total
— no input makes it raise. -/
theorem C6_crawl_catches (impl : Except String (List CrawlSns.Post))
    (closeFails : Bool) :
    (∀ e, impl = .error e → CrawlSns.BaseCrawler.crawl impl closeFails = []) ∧
    (∀ ps, impl = .ok ps → CrawlSns.BaseCrawler.crawl impl closeFails = ps) := by
  constructor
  · rintro e rfl; rfl
  · rintro ps rfl; rfl

/-- C6 witness: a concrete failing and succeeding implementation run. -/
theorem C6_crawl_catches_witness :
    CrawlSns.BaseCrawler.crawl (.error "boom") false = [] ∧
      CrawlSns.BaseCrawler.crawl (.ok []) true = [] := by
  exact ⟨(C6_crawl_catches (.error "boom") false).1 "boom" rfl,
    (C6_crawl_catches (.ok []) true).2 [] rfl⟩

namespace CrawlSns

theorem dup_of_none_url {posts : List Post} {r : Record} (hr : r.url = none)
    {p : Post} (hp : p ∈ posts) (hpu : p.url = none) :
    progressive_is_duplicate posts r = true := by
  simp only [progressive_is_duplicate, List.any_eq_true]
  exact ⟨p, hp, by simp [hpu, hr]⟩

theorem none_url_not_mem_of_not_dup {posts : List Post} {r : Record}
    (h : progressive_is_duplicate posts r = false) (hr : r.url = none) :
    ∀ p ∈ posts, p.url ≠ none := by
  intro p hp hpu
  exact absurd (dup_of_none_url hr hp hpu) (by simp [h])

theorem countNoneUrl_eq_zero {posts : List Post}
    (h : ∀ p ∈ posts, p.url ≠ none) : countNoneUrl posts = 0 := by
  induction posts with
  | nil => rfl
  | cons p rest ih =>
    have hp : p.url.isNone = false := by
      cases hu : p.url with
      | none => exact absurd hu (h p (by simp))
      | some v => rfl
    simp only [countNoneUrl, List.filter_cons, hp]
    exact ih fun q hq => h q (by simp [hq])

theorem countNoneUrl_append (posts : List Post) (p : Post) :
    countNoneUrl (posts ++ [p]) =
      countNoneUrl posts + (if p.url.isNone then 1 else 0) := by
  simp only [countNoneUrl, List.filter_append, List.length_append, List.filter_cons,
    List.filter_nil]
  split <;> simp

/-- Appending a record through any of the three progressive inner loops keeps
at most one URL-less post. -/
theorem countNoneUrl_le_one_append {posts : List Post} {r : Record} {p : Post}
    (hurl : p.url = r.url)
    (hdup : progressive_is_duplicate posts r = false)
    (h : countNoneUrl posts ≤ 1) : countNoneUrl (posts ++ [p]) ≤ 1 := by
  rw [countNoneUrl_append]
  cases hr : r.url with
  | none =>
    have h0 : countNoneUrl posts = 0 :=
      countNoneUrl_eq_zero (none_url_not_mem_of_not_dup hdup hr)
    simp [h0, hurl, hr]
  | some v => simp [hurl, hr, h]

theorem reddit_add_countNoneUrl (target : Nat) :
    ∀ (recs : List Record) (posts : List Post), countNoneUrl posts ≤ 1 →
      countNoneUrl (reddit_add posts target recs) ≤ 1 := by
  intro recs
  induction recs with
  | nil => intro posts h; exact h
  | cons r rest ih =>
    intro posts h
    simp only [reddit_add]
    split
    · exact h
    · split
      · exact ih posts h
      · exact ih _ (countNoneUrl_le_one_append rfl (by simp_all) h)

theorem x_add_countNoneUrl (target : Nat) :
    ∀ (recs : List Record) (posts : List Post), countNoneUrl posts ≤ 1 →
      countNoneUrl (x_add posts target recs) ≤ 1 := by
  intro recs
  induction recs with
  | nil => intro posts h; exact h
  | cons r rest ih =>
    intro posts h
    simp only [x_add]
    split
    · exact h
    · split
      · exact ih posts h
      · split
        · exact ih _ (countNoneUrl_le_one_append rfl (by simp_all) h)
        · exact ih posts h

theorem linkedin_add_countNoneUrl (target : Nat) :
    ∀ (recs : List Record) (posts : List Post), countNoneUrl posts ≤ 1 →
      countNoneUrl (linkedin_add posts target recs) ≤ 1 := by
  intro recs
  induction recs with
  | nil => intro posts h; exact h
  | cons r rest ih =>
    intro posts h
    simp only [linkedin_add]
    split
    · exact h
    · split
      · exact ih posts h
      · split
        · exact ih _ (countNoneUrl_le_one_append rfl (by simp_all) h)
        · exact ih posts h

theorem reddit_collect_countNoneUrl (target maxScroll : Nat) :
    ∀ (rounds : List (List Record)) (posts : List Post) (a : Nat),
      countNoneUrl posts ≤ 1 →
      countNoneUrl (reddit_collect target maxScroll rounds posts a) ≤ 1 := by
  intro rounds
  induction rounds with
  | nil => intro posts a h; exact h
  | cons round rest ih =>
    intro posts a h
    simp only [reddit_collect]
    split
    · split
      · exact reddit_add_countNoneUrl target round posts h
      · exact ih _ _ (reddit_add_countNoneUrl target round posts h)
    · exact h

theorem x_collect_countNoneUrl (target maxScroll : Nat) :
    ∀ (rounds : List (List Record)) (posts : List Post) (a : Nat),
      countNoneUrl posts ≤ 1 →
      countNoneUrl (x_collect target maxScroll rounds posts a) ≤ 1 := by
  intro rounds
  induction rounds with
  | nil => intro posts a h; exact h
  | cons round rest ih =>
    intro posts a h
    simp only [x_collect]
    split
    · split
      · exact x_add_countNoneUrl target round posts h
      · split
        · exact ih _ _ (x_add_countNoneUrl target round posts h)
        · exact ih _ _ (x_add_countNoneUrl target round posts h)
    · exact h

theorem linkedin_collect_countNoneUrl (target maxScroll : Nat) :
    ∀ (rounds : List (List Record)) (posts : List Post) (a : Nat),
      countNoneUrl posts ≤ 1 →
      countNoneUrl (linkedin_collect target maxScroll rounds posts a) ≤ 1 := by
  intro rounds
  induction rounds with
  | nil => intro posts a h; exact h
  | cons round rest ih =>
    intro posts a h
    simp only [linkedin_collect]
    split
    · split
      · exact linkedin_add_countNoneUrl target round posts h
      · split
        · exact ih _ _ (linkedin_add_countNoneUrl target round posts h)
        · exact ih _ _ (linkedin_add_countNoneUrl target round posts h)
    · exact h

theorem countNoneUrl_take_le (ps : List Post) (n : Nat) :
    countNoneUrl (ps.take n) ≤ countNoneUrl ps := by
  simpa [countNoneUrl] using
    List.Sublist.length_le (List.Sublist.filter _ (List.take_sublist n ps))

end CrawlSns

/-- C10: in the Reddit, X and LinkedIn progressive collectors the duplicate
check compares URLs by plain equality including the absent value: once some
collected post has no URL, any further URL-less record is classified a
duplicate no matter its author or content, and each full collection run
keeps at most one URL-less post. -/
theorem C10_url_none_duplicate (posts : List CrawlSns.Post) (r : CrawlSns.Record)
    (rounds : List (List CrawlSns.Record)) (target maxScroll : Nat) :
    (r.url = none → (∃ p ∈ posts, p.url = none) →
      CrawlSns.progressive_is_duplicate posts r = true) ∧
    CrawlSns.countNoneUrl
      (CrawlSns.reddit_progressive_post_collection rounds target maxScroll) ≤ 1 ∧
    CrawlSns.countNoneUrl
      (CrawlSns.x_progressive_post_collection rounds target maxScroll) ≤ 1 ∧
    CrawlSns.countNoneUrl
      (CrawlSns.linkedin_progressive_post_collection rounds target maxScroll) ≤ 1 := by
  refine ⟨?_, ?_, ?_, ?_⟩
  · rintro hr ⟨p, hp, hpu⟩
    exact CrawlSns.dup_of_none_url hr hp hpu
  · exact CrawlSns.reddit_collect_countNoneUrl target maxScroll rounds [] 0 (by decide)
  · exact le_trans (CrawlSns.countNoneUrl_take_le _ target)
      (CrawlSns.x_collect_countNoneUrl target maxScroll rounds [] 0 (by decide))
  · exact le_trans (CrawlSns.countNoneUrl_take_le _ target)
      (CrawlSns.linkedin_collect_countNoneUrl target maxScroll rounds [] 0 (by decide))

/-- C10 witness: a concrete URL-less record against a collection holding a
URL-less post is classified duplicate. -/
theorem C10_url_none_duplicate_witness :
    CrawlSns.progressive_is_duplicate
      [{ platform := "x", author := "a", content := "c", timestamp := "t", url := none }]
      { author := some "b", content := some "other" } = true := by
  exact (C10_url_none_duplicate
    [{ platform := "x", author := "a", content := "c", timestamp := "t", url := none }]
    { author := some "b", content := some "other" } [] 0 0).1 rfl
    ⟨{ platform := "x", author := "a", content := "c", timestamp := "t", url := none },
      by simp, rfl⟩

namespace CrawlSns

theorem reddit_add_length_le (target : Nat) :
    ∀ (recs : List Record) (posts : List Post), posts.length ≤ target →
      (reddit_add posts target recs).length ≤ target := by
  intro recs
  induction recs with
  | nil => intro posts h; exact h
  | cons r rest ih =>
    intro posts h
    simp only [reddit_add]
    split
    · exact h
    · split
      · exact ih posts h
      · refine ih _ ?_
        simp only [List.length_append, List.length_cons, List.length_nil]
        omega

theorem x_add_length_le (target : Nat) :
    ∀ (recs : List Record) (posts : List Post), posts.length ≤ target →
      (x_add posts target recs).length ≤ target := by
  intro recs
  induction recs with
  | nil => intro posts h; exact h
  | cons r rest ih =>
    intro posts h
    simp only [x_add]
    split
    · exact h
    · split
      · exact ih posts h
      · split
        · refine ih _ ?_
          simp only [List.length_append, List.length_cons, List.length_nil]
          omega
        · exact ih posts h

theorem linkedin_add_length_le (target : Nat) :
    ∀ (recs : List Record) (posts : List Post), posts.length ≤ target →
      (linkedin_add posts target recs).length ≤ target := by
  intro recs
  induction recs with
  | nil => intro posts h; exact h
  | cons r rest ih =>
    intro posts h
    simp only [linkedin_add]
    split
    · exact h
    · split
      · exact ih posts h
      · split
        · refine ih _ ?_
          simp only [List.length_append, List.length_cons, List.length_nil]
          omega
        · exact ih posts h

theorem reddit_collect_length_le (target maxScroll : Nat) :
    ∀ (rounds : List (List Record)) (posts : List Post) (a : Nat),
      posts.length ≤ target →
      (reddit_collect target maxScroll rounds posts a).length ≤ target := by
  intro rounds
  induction rounds with
  | nil => intro posts a h; exact h
  | cons round rest ih =>
    intro posts a h
    simp only [reddit_collect]
    split
    · split
      · exact reddit_add_length_le target round posts h
      · exact ih _ _ (reddit_add_length_le target round posts h)
    · exact h

theorem x_collect_length_le (target maxScroll : Nat) :
    ∀ (rounds : List (List Record)) (posts : List Post) (a : Nat),
      posts.length ≤ target →
      (x_collect target maxScroll rounds posts a).length ≤ target := by
  intro rounds
  induction rounds with
  | nil => intro posts a h; exact h
  | cons round rest ih =>
    intro posts a h
    simp only [x_collect]
    split
    · split
      · exact x_add_length_le target round posts h
      · split
        · exact ih _ _ (x_add_length_le target round posts h)
        · exact ih _ _ (x_add_length_le target round posts h)
    · exact h

theorem linkedin_collect_length_le (target maxScroll : Nat) :
    ∀ (rounds : List (List Record)) (posts : List Post) (a : Nat),
      posts.length ≤ target →
      (linkedin_collect target maxScroll rounds posts a).length ≤ target := by
  intro rounds
  induction rounds with
  | nil => intro posts a h; exact h
  | cons round rest ih =>
    intro posts a h
    simp only [linkedin_collect]
    split
    · split
      · exact linkedin_add_length_le target round posts h
      · split
        · exact ih _ _ (linkedin_add_length_le target round posts h)
        · exact ih _ _ (linkedin_add_length_le target round posts h)
    · exact h

/-- Once the target is reached, the inner loops examine nothing further. -/
theorem reddit_add_stops (target : Nat) (posts : List Post)
    (h : target ≤ posts.length) :
    ∀ recs : List Record, reddit_add posts target recs = posts := by
  intro recs
  cases recs with
  | nil => rfl
  | cons r rest =>
    simp only [reddit_add]
    rw [if_pos h]

theorem x_add_stops (target : Nat) (posts : List Post)
    (h : target ≤ posts.length) :
    ∀ recs : List Record, x_add posts target recs = posts := by
  intro recs
  cases recs with
  | nil => rfl
  | cons r rest =>
    simp only [x_add]
    rw [if_pos h]

theorem linkedin_add_stops (target : Nat) (posts : List Post)
    (h : target ≤ posts.length) :
    ∀ recs : List Record, linkedin_add posts target recs = posts := by
  intro recs
  cases recs with
  | nil => rfl
  | cons r rest =>
    simp only [linkedin_add]
    rw [if_pos h]

/-- Once the target is reached, the outer while loops terminate at once. -/
theorem reddit_collect_stops (target maxScroll : Nat) (posts : List Post)
    (a : Nat) (h : target ≤ posts.length) :
    ∀ rounds : List (List Record),
      reddit_collect target maxScroll rounds posts a = posts := by
  intro rounds
  cases rounds with
  | nil => rfl
  | cons round rest =>
    simp only [reddit_collect]
    rw [if_neg (by omega)]

theorem x_collect_stops (target maxScroll : Nat) (posts : List Post)
    (a : Nat) (h : target ≤ posts.length) :
    ∀ rounds : List (List Record),
      x_collect target maxScroll rounds posts a = posts := by
  intro rounds
  cases rounds with
  | nil => rfl
  | cons round rest =>
    simp only [x_collect]
    rw [if_neg (by omega)]

theorem linkedin_collect_stops (target maxScroll : Nat) (posts : List Post)
    (a : Nat) (h : target ≤ posts.length) :
    ∀ rounds : List (List Record),
      linkedin_collect target maxScroll rounds posts a = posts := by
  intro rounds
  cases rounds with
  | nil => rfl
  | cons round rest =>
    simp only [linkedin_collect]
    rw [if_neg (by omega)]

/-- Threads inner round: starting strictly below the target, an early return
fires exactly at the target and otherwise the collected list stays strictly
below it. -/
theorem threads_extract_round_bound (target : Nat) :
    ∀ (recs : List Record) (allPosts : List Record) (seen : List String),
      allPosts.length < target →
      ((threads_extract_round allPosts seen target recs).2.2 = true →
        (threads_extract_round allPosts seen target recs).1.length = target) ∧
      ((threads_extract_round allPosts seen target recs).2.2 = false →
        (threads_extract_round allPosts seen target recs).1.length < target) := by
  intro recs
  induction recs with
  | nil =>
    intro allPosts seen h
    exact ⟨fun hb => absurd hb (by simp [threads_extract_round]), fun _ => h⟩
  | cons r rest ih =>
    intro allPosts seen h
    simp only [threads_extract_round]
    split
    · exact ih allPosts seen h
    · split
      · split
        · rename_i hge
          constructor
          · intro _
            simp only [List.length_append, List.length_cons, List.length_nil] at hge ⊢
            omega
          · intro hb; exact absurd hb (by simp)
        · rename_i hlt
          refine ih _ _ ?_
          simp only [List.length_append, List.length_cons, List.length_nil] at hlt ⊢
          omega
      · exact ih allPosts seen h

theorem threads_extract_loop_length_le (target : Nat) :
    ∀ (rounds : List (List Record)) (allPosts : List Record)
      (seen : List String) (noNew : Nat),
      allPosts.length < target →
      (threads_extract_loop target rounds allPosts seen noNew).length ≤ target := by
  intro rounds
  induction rounds with
  | nil => intro allPosts seen noNew h; exact Nat.le_of_lt h
  | cons round rest ih =>
    intro allPosts seen noNew h
    have hb := threads_extract_round_bound target round allPosts seen h
    simp only [threads_extract_loop]
    split
    · rename_i hhit
      exact le_of_eq (hb.1 hhit)
    · rename_i hhit
      rw [Bool.not_eq_true] at hhit
      have hlt := hb.2 hhit
      split
      all_goals
        split
        · exact Nat.le_of_lt hlt
        · split
          · exact Nat.le_of_lt hlt
          · exact ih _ _ _ hlt

end CrawlSns

/-- C3: the claim's "identical author and identical content implies same
post" direction is false for the Threads crawler: its dedup key
`_generate_post_id` is the URL whenever one is present, so two records with
the same author and content but distinct URLs are both collected. -/
theorem C3_counterexample :
    CrawlSns.c3rec1.author = CrawlSns.c3rec2.author ∧
    CrawlSns.c3rec1.content = CrawlSns.c3rec2.content ∧
    CrawlSns.c3rec1.url ≠ CrawlSns.c3rec2.url ∧
    (CrawlSns.threads_extract_round [] [] 5
      [CrawlSns.c3rec1, CrawlSns.c3rec2]).1 = [CrawlSns.c3rec1, CrawlSns.c3rec2] := by
  refine ⟨rfl, rfl, by decide, by decide⟩

/-- C3 (amended): in the Reddit, X and LinkedIn progressive collectors two
records are classified as the same post — so the second is skipped — exactly
when they have an equal URL field or an equal author and equal content,
and a non-duplicate record below the target is appended (for X/LinkedIn when
it also passes the validity filter); the Threads crawler instead
deduplicates by a generated post id (the URL when present, otherwise
author plus the first 100 content characters), skipping a record exactly
when its id was already seen. -/
theorem C3_amended_duplicate_detection (posts : List CrawlSns.Post)
    (r : CrawlSns.Record) (target : Nat) :
    (CrawlSns.progressive_is_duplicate posts r = true ↔
      ∃ p ∈ posts, p.url = r.url ∨
        (CrawlSns.strEqOpt p.content r.content = true ∧
          CrawlSns.strEqOpt p.author r.author = true)) ∧
    (posts.length < target →
      (CrawlSns.progressive_is_duplicate posts r = true →
        CrawlSns.reddit_add posts target [r] = posts ∧
        CrawlSns.x_add posts target [r] = posts ∧
        CrawlSns.linkedin_add posts target [r] = posts) ∧
      (CrawlSns.progressive_is_duplicate posts r = false →
        CrawlSns.reddit_add posts target [r] =
          posts ++ [CrawlSns.mkRedditPost r] ∧
        (CrawlSns.x_is_valid_post r = true →
          CrawlSns.x_add posts target [r] = posts ++ [CrawlSns.mkXPost r]) ∧
        (CrawlSns.linkedin_is_valid_post r = true →
          CrawlSns.linkedin_add posts target [r] =
            posts ++ [CrawlSns.mkLinkedinPost r]))) ∧
    (∀ (allPosts : List CrawlSns.Record) (seen : List String)
        (rest : List CrawlSns.Record),
      (CrawlSns.threads_generate_post_id r ∈ seen →
        CrawlSns.threads_extract_round allPosts seen target (r :: rest) =
          CrawlSns.threads_extract_round allPosts seen target rest) ∧
      (CrawlSns.threads_generate_post_id r ∉ seen →
        CrawlSns.threads_is_valid_post r = true →
        (allPosts ++ [r]).length < target →
        CrawlSns.threads_extract_round allPosts seen target (r :: rest) =
          CrawlSns.threads_extract_round (allPosts ++ [r])
            (seen ++ [CrawlSns.threads_generate_post_id r]) target rest)) := by
  refine ⟨?_, ?_, ?_⟩
  · simp [CrawlSns.progressive_is_duplicate, List.any_eq_true]
  · intro hlen
    constructor
    · intro hdup
      refine ⟨?_, ?_, ?_⟩ <;>
        simp only [CrawlSns.reddit_add, CrawlSns.x_add, CrawlSns.linkedin_add] <;>
        rw [if_neg (by omega), if_pos hdup]
    · intro hdup
      refine ⟨?_, ?_, ?_⟩
      · simp only [CrawlSns.reddit_add]
        rw [if_neg (by omega), if_neg (by simp [hdup])]
      · intro hv
        simp only [CrawlSns.x_add]
        rw [if_neg (by omega), if_neg (by simp [hdup]), if_pos hv]
      · intro hv
        simp only [CrawlSns.linkedin_add]
        rw [if_neg (by omega), if_neg (by simp [hdup]), if_pos hv]
  · intro allPosts seen rest
    constructor
    · intro hmem
      simp only [CrawlSns.threads_extract_round]
      rw [if_pos hmem]
    · intro hmem hv hlen
      simp only [CrawlSns.threads_extract_round]
      rw [if_neg hmem, if_pos hv, if_neg (by omega)]

/-- C3 amended-claim witness at concrete inputs. -/
theorem C3_amended_duplicate_detection_witness :
    CrawlSns.progressive_is_duplicate [] CrawlSns.c3rec1 = false ∧
      CrawlSns.reddit_add [] 5 [CrawlSns.c3rec1] =
        [CrawlSns.mkRedditPost CrawlSns.c3rec1] := by
  have h := C3_amended_duplicate_detection [] CrawlSns.c3rec1 5
  refine ⟨?_, ?_⟩
  · have := h.1
    simp only [List.not_mem_nil, false_and, exists_false, iff_false,
      Bool.not_eq_true] at this
    simpa using this
  · have hdup : CrawlSns.progressive_is_duplicate [] CrawlSns.c3rec1 = false := by
      decide
    simpa using ((h.2.1 (by decide)).2 hdup).1

/-- C9: the claim as stated (`n >= 0`) is false: the Threads incremental
extraction loop checks the target only after appending, so with target 0 it
still collects (and returns) one post. -/
theorem C9_counterexample :
    0 < (CrawlSns.threads_extract_posts_incrementally
      [[CrawlSns.goodThreadsRecord]] 0).length := by
  decide

/-- C9 (amended): the Reddit, X and LinkedIn progressive collectors never
hold more than `n` posts for any target `n ≥ 0` and stop examining records
or scrolling as soon as `n` posts have been gathered; the Threads
incremental extraction loop has the same bound only for `n ≥ 1` (its target
check runs after appending), returning exactly `n` records the moment the
target is reached, and `ThreadsCrawler._crawl_implementation`'s `[:count]`
slice bounds its final result by `n` for every `n ≥ 0`. -/
theorem C9_amended_collection_bounded (rounds : List (List CrawlSns.Record))
    (target maxScroll : Nat) (posts : List CrawlSns.Post) (a : Nat)
    (loginOk : Bool) :
    (CrawlSns.reddit_progressive_post_collection rounds target maxScroll).length
        ≤ target ∧
    (CrawlSns.x_progressive_post_collection rounds target maxScroll).length
        ≤ target ∧
    (CrawlSns.linkedin_progressive_post_collection rounds target maxScroll).length
        ≤ target ∧
    (target ≤ posts.length →
      CrawlSns.reddit_collect target maxScroll rounds posts a = posts ∧
      CrawlSns.x_collect target maxScroll rounds posts a = posts ∧
      CrawlSns.linkedin_collect target maxScroll rounds posts a = posts) ∧
    (1 ≤ target →
      (CrawlSns.threads_extract_posts_incrementally rounds target).length
        ≤ target) ∧
    (CrawlSns.threads_crawl_implementation loginOk rounds target).length
        ≤ target := by
  refine ⟨?_, ?_, ?_, ?_, ?_, ?_⟩
  · exact CrawlSns.reddit_collect_length_le target maxScroll rounds [] 0
      (Nat.zero_le target)
  · exact le_trans (List.length_take_le target _) le_rfl
  · exact le_trans (List.length_take_le target _) le_rfl
  · intro h
    exact ⟨CrawlSns.reddit_collect_stops target maxScroll posts a h rounds,
      CrawlSns.x_collect_stops target maxScroll posts a h rounds,
      CrawlSns.linkedin_collect_stops target maxScroll posts a h rounds⟩
  · intro h
    exact CrawlSns.threads_extract_loop_length_le target rounds [] [] 0 h
  · calc (CrawlSns.threads_crawl_implementation loginOk rounds target).length
        = (((CrawlSns.threads_extract_posts_incrementally rounds target).take
            target).filter CrawlSns.threads_is_valid_post).length := by
          simp [CrawlSns.threads_crawl_implementation]
      _ ≤ ((CrawlSns.threads_extract_posts_incrementally rounds target).take
            target).length := List.length_filter_le _ _
      _ ≤ target := List.length_take_le target _

/-- C9 amended-claim witness at a concrete run. -/
theorem C9_amended_collection_bounded_witness :
    (3 : Nat) ≤ 3 ∧ (1 : Nat) ≤ 3 ∧
      (CrawlSns.threads_extract_posts_incrementally
        [[CrawlSns.goodThreadsRecord]] 3).length ≤ 3 ∧
      CrawlSns.reddit_collect 3 10 [[CrawlSns.goodThreadsRecord]]
        [CrawlSns.mkRedditPost CrawlSns.goodThreadsRecord,
         CrawlSns.mkXPost CrawlSns.goodThreadsRecord,
         CrawlSns.mkThreadsPost CrawlSns.goodThreadsRecord] 0 =
        [CrawlSns.mkRedditPost CrawlSns.goodThreadsRecord,
         CrawlSns.mkXPost CrawlSns.goodThreadsRecord,
         CrawlSns.mkThreadsPost CrawlSns.goodThreadsRecord] := by
  have h := C9_amended_collection_bounded [[CrawlSns.goodThreadsRecord]] 3 10
    [CrawlSns.mkRedditPost CrawlSns.goodThreadsRecord,
     CrawlSns.mkXPost CrawlSns.goodThreadsRecord,
     CrawlSns.mkThreadsPost CrawlSns.goodThreadsRecord] 0 true
  exact ⟨le_rfl, by decide, h.2.2.2.2.1 (by decide), (h.2.2.2.1 (by decide)).1⟩

/-- C8: the claim as stated is false for Threads: its
`_crawl_implementation` discards the result of `_attempt_login`, so after an
unrecoverable login failure the crawl still proceeds with extraction and can
return a non-empty result instead of an empty one. -/
theorem C8_counterexample :
    CrawlSns.threads_crawl_implementation false
      [[CrawlSns.goodThreadsRecord]] 5 ≠ [] := by
  decide

/-- C8 (amended): on unrecoverable login failure the Reddit crawler returns
the empty result set together with the printed hint, without raising or
returning a distinct error value; the Threads crawler instead ignores the
login outcome entirely — its result is whatever the extraction then yields,
identical for failed and successful login — and no crawler surfaces a
distinct error type. -/
theorem C8_amended_login_failure (collected : List CrawlSns.Post)
    (rounds : List (List CrawlSns.Record)) (count : Nat) :
    CrawlSns.reddit_crawl_implementation false false collected = ([], true) ∧
    (CrawlSns.reddit_crawl_implementation false true collected).1 = collected ∧
    CrawlSns.threads_crawl_implementation false rounds count =
      CrawlSns.threads_crawl_implementation true rounds count := by
  exact ⟨rfl, rfl, rfl⟩


namespace CrawlSns

/-! ### C1 supporting lemmas -/

theorem charLower_isDigit (c : Char) : (charLower c).isDigit = c.isDigit := by
  unfold charLower
  cases hf : asciiUpperLower.find? (fun p => p.1 = c) with
  | none => rfl
  | some p =>
    show p.2.isDigit = c.isDigit
    have hmem := List.mem_of_find?_eq_some hf
    have hp : p.1 = c := by simpa using List.find?_some hf
    subst hp
    fin_cases hmem <;> decide

theorem charLower_of_isDigit {c : Char} (h : c.isDigit = true) :
    charLower c = c := by
  unfold charLower
  cases hf : asciiUpperLower.find? (fun p => p.1 = c) with
  | none => rfl
  | some p =>
    show p.2 = c
    have hmem := List.mem_of_find?_eq_some hf
    have hp : p.1 = c := by simpa using List.find?_some hf
    subst hp
    fin_cases hmem <;> exact absurd h (by decide)

theorem charLower_ne_i {c : Char} (h1 : c ≠ 'i') (h2 : c ≠ 'I') :
    charLower c ≠ 'i' := by
  unfold charLower
  cases hf : asciiUpperLower.find? (fun p => p.1 = c) with
  | none => exact h1
  | some p =>
    show p.2 ≠ 'i'
    have hmem := List.mem_of_find?_eq_some hf
    have hp : p.1 = c := by simpa using List.find?_some hf
    fin_cases hmem <;> first
    | decide
    | exact absurd hp.symm h2

theorem charLower_ne_I {c : Char} (h2 : c ≠ 'I') : charLower c ≠ 'I' := by
  unfold charLower
  cases hf : asciiUpperLower.find? (fun p => p.1 = c) with
  | none => exact h2
  | some p =>
    show p.2 ≠ 'I'
    have hmem := List.mem_of_find?_eq_some hf
    fin_cases hmem <;> decide

theorem not_isPySpace_of_isDigit {c : Char} (h : c.isDigit = true) :
    isPySpace c = false := by
  by_contra hs
  rw [Bool.not_eq_false] at hs
  simp only [isPySpace, Bool.or_eq_true, decide_eq_true_eq] at hs
  rcases hs with ((((h1 | h1) | h1) | h1) | h1) | h1 <;> subst h1 <;> simp at h

theorem pyStripL_subset (l : List Char) : pyStripL l ⊆ l := by
  intro c hc
  simp only [pyStripL, List.mem_reverse] at hc
  exact List.dropWhile_subset _ (by simpa using List.dropWhile_subset _ hc)

theorem dropWhile_eq_self_of_head {p : Char → Bool} {l : List Char}
    (h : ∀ c ∈ l, p c = false) : l.dropWhile p = l := by
  cases l with
  | nil => rfl
  | cons c rest =>
    exact List.dropWhile_cons_of_neg (by simp [h c (by simp)])

theorem pyStripL_eq_self {l : List Char} (h : ∀ c ∈ l, isPySpace c = false) :
    pyStripL l = l := by
  unfold pyStripL
  rw [dropWhile_eq_self_of_head h,
    dropWhile_eq_self_of_head (by intro c hc; exact h c (by simpa using hc)),
    List.reverse_reverse]

theorem takeWhile_eq_self_of {p : Char → Bool} {l : List Char}
    (h : ∀ c ∈ l, p c = true) : l.takeWhile p = l := by
  induction l with
  | nil => rfl
  | cons c rest ih =>
    rw [List.takeWhile_cons_of_pos (h c (by simp))]
    rw [ih fun d hd => h d (by simp [hd])]

theorem dropWhile_eq_nil_of {p : Char → Bool} {l : List Char}
    (h : ∀ c ∈ l, p c = true) : l.dropWhile p = [] := by
  induction l with
  | nil => rfl
  | cons c rest ih =>
    rw [List.dropWhile_cons_of_pos (h c (by simp))]
    exact ih fun d hd => h d (by simp [hd])

theorem pyLowerL_of_digits {l : List Char} (h : ∀ c ∈ l, c.isDigit = true) :
    pyLowerL l = l := by
  induction l with
  | nil => rfl
  | cons c rest ih =>
    simp only [pyLowerL, List.map_cons]
    rw [charLower_of_isDigit (h c (by simp))]
    have := ih fun d hd => h d (by simp [hd])
    simpa [pyLowerL] using this

theorem filter_eq_self_of {p : Char → Bool} {l : List Char}
    (h : ∀ c ∈ l, p c = true) : l.filter p = l := by
  induction l with
  | nil => rfl
  | cons c rest ih =>
    rw [List.filter_cons_of_pos (h c (by simp))]
    rw [ih fun d hd => h d (by simp [hd])]

theorem digitFree_pyLowerL {l : List Char} (h : digitFree l) :
    digitFree (pyLowerL l) := by
  intro c hc
  simp only [pyLowerL, List.mem_map] at hc
  obtain ⟨d, hd, rfl⟩ := hc
  rw [charLower_isDigit]
  exact h d hd

theorem iFree_pyLowerL {l : List Char} (h : iFree l) : iFree (pyLowerL l) := by
  intro c hc
  simp only [pyLowerL, List.mem_map] at hc
  obtain ⟨d, hd, rfl⟩ := hc
  exact ⟨charLower_ne_i (h d hd).1 (h d hd).2, charLower_ne_I (h d hd).2⟩

theorem digitFree_subset {l l' : List Char} (hs : l' ⊆ l) (h : digitFree l) :
    digitFree l' := fun c hc => h c (hs hc)

theorem iFree_subset {l l' : List Char} (hs : l' ⊆ l) (h : iFree l) :
    iFree l' := fun c hc => h c (hs hc)

theorem tail_subset_char (l : List Char) : l.tail ⊆ l := by
  cases l with
  | nil => simp
  | cons c rest => simp [List.subset_cons_of_subset]

end CrawlSns

namespace CrawlSns

theorem ne_of_isDigit_of_not {c d : Char} (h : c.isDigit = true)
    (hd : d.isDigit = false) : c ≠ d := by
  intro he
  subst he
  rw [h] at hd
  exact Bool.noConfusion hd

theorem parseUDigitsAux_all_digits :
    ∀ (l : List Char) (acc cnt : Nat), (∀ c ∈ l, c.isDigit = true) →
      parseUDigitsAux l acc cnt =
        ((l.foldl (fun a c => 10 * a + (c.toNat - 48)) acc, cnt + l.length), []) := by
  intro l
  induction l with
  | nil => intro acc cnt _; rfl
  | cons c rest ih =>
    intro acc cnt h
    simp only [parseUDigitsAux]
    rw [if_pos (h c (by simp))]
    rw [ih _ _ fun d hd => h d (by simp [hd])]
    simp only [List.foldl_cons, List.length_cons]
    have hc : cnt + 1 + rest.length = cnt + (rest.length + 1) := by omega
    rw [hc]

theorem parseUDigits_all_digits {l : List Char} (hne : l ≠ [])
    (h : ∀ c ∈ l, c.isDigit = true) :
    parseUDigits l = some ((natVal l, l.length), []) := by
  cases l with
  | nil => exact absurd rfl hne
  | cons c rest =>
    simp only [parseUDigits]
    rw [if_pos (h c (by simp))]
    rw [parseUDigitsAux_all_digits _ 0 0 h]
    simp [natVal]

theorem parseUDigits_none_of_digitFree {l : List Char} (h : digitFree l) :
    parseUDigits l = none := by
  cases l with
  | nil => rfl
  | cons c rest =>
    simp only [parseUDigits]
    rw [if_neg (by simp [h c (by simp)])]

theorem parseNumeric_all_digits {l : List Char} (hne : l ≠ [])
    (h : ∀ c ∈ l, c.isDigit = true) :
    parseNumeric l = some (natVal l, 0) := by
  simp only [parseNumeric]
  rw [parseUDigits_all_digits hne h]
  rfl

theorem parseNumeric_none_of_digitFree {l : List Char} (h : digitFree l) :
    parseNumeric l = none := by
  simp only [parseNumeric]
  rw [parseUDigits_none_of_digitFree h]
  cases l with
  | nil => rfl
  | cons c rest =>
    cases hc : c with
    | mk v hv =>
      rw [← hc]
      by_cases hdot : c = '.'
      · subst hdot
        simp only []
        rw [parseUDigits_none_of_digitFree fun d hd => h d (by simp [hd])]
      · have : (c :: rest) = c :: rest := rfl
        cases c with
        | mk v2 hv2 =>
          simp only []
          split
          · rename_i heq
            rw [parseUDigits_none_of_digitFree fun d hd => h d (by
              rw [List.cons_eq_cons] at heq
              simp [heq.2, hd])]
          · rfl

end CrawlSns

namespace CrawlSns

theorem isInfChars_head {l : List Char} (h : isInfChars l = true) :
    ∃ c rest, l = c :: rest ∧ (c = 'i' ∨ c = 'I') := by
  unfold isInfChars at h
  split at h
  · rename_i a b c
    refine ⟨a, _, rfl, ?_⟩
    simp only [ci, Bool.and_eq_true, Bool.or_eq_true, decide_eq_true_eq] at h
    exact h.1.1
  · rename_i a b c d e f g hh
    refine ⟨a, _, rfl, ?_⟩
    simp only [ci, Bool.and_eq_true, Bool.or_eq_true, decide_eq_true_eq] at h
    exact h.1.1.1.1.1.1.1
  · exact Bool.noConfusion h

theorem isNanChars_head {l : List Char} (h : isNanChars l = true) :
    ∃ c rest, l = c :: rest ∧ (c = 'n' ∨ c = 'N') := by
  unfold isNanChars at h
  split at h
  · rename_i a b c
    refine ⟨a, _, rfl, ?_⟩
    simp only [ci, Bool.and_eq_true, Bool.or_eq_true, decide_eq_true_eq] at h
    exact h.1.1
  · exact Bool.noConfusion h

theorem floatSign_of_head {c : Char} {rest : List Char}
    (hp : c ≠ '+') (hm : c ≠ '-') :
    floatSign (c :: rest) = (false, c :: rest) := by
  unfold floatSign
  rw [if_neg]
  simp [hp, hm]

theorem floatSign_snd_subset (l : List Char) : (floatSign l).2 ⊆ l := by
  unfold floatSign
  split
  · exact tail_subset_char l
  · exact fun c hc => hc

theorem pyFloatL_all_digits {l : List Char} (hne : l ≠ [])
    (h : ∀ c ∈ l, c.isDigit = true) :
    pyFloatL l = some (.finite (natVal l) 0) := by
  simp only [pyFloatL]
  rw [pyStripL_eq_self fun c hc => not_isPySpace_of_isDigit (h c hc)]
  cases l with
  | nil => exact absurd rfl hne
  | cons c rest =>
    have hcd := h c (by simp)
    rw [floatSign_of_head (ne_of_isDigit_of_not hcd (by decide))
      (ne_of_isDigit_of_not hcd (by decide))]
    have hinf : isInfChars (c :: rest) = false := by
      cases hii : isInfChars (c :: rest) with
      | false => rfl
      | true =>
        obtain ⟨c', rest', heq, hc'⟩ := isInfChars_head hii
        rw [List.cons_eq_cons] at heq
        rcases hc' with hc' | hc' <;> rw [← heq.1] at hc' <;> subst hc' <;>
          exact absurd hcd (by decide)
    have hnan : isNanChars (c :: rest) = false := by
      cases hii : isNanChars (c :: rest) with
      | false => rfl
      | true =>
        obtain ⟨c', rest', heq, hc'⟩ := isNanChars_head hii
        rw [List.cons_eq_cons] at heq
        rcases hc' with hc' | hc' <;> rw [← heq.1] at hc' <;> subst hc' <;>
          exact absurd hcd (by decide)
    simp only [hinf, hnan, Bool.false_eq_true, if_false]
    rw [parseNumeric_all_digits (by simp) h]

theorem pyFloatL_digitFree_iFree {l : List Char} (hd : digitFree l)
    (hi : iFree l) : pyFloatL l = none ∨ pyFloatL l = some .nan := by
  simp only [pyFloatL]
  have hsub1 : (floatSign (pyStripL l)).2 ⊆ l := fun c hc =>
    pyStripL_subset l (floatSign_snd_subset (pyStripL l) hc)
  have hd1 : digitFree (floatSign (pyStripL l)).2 := digitFree_subset hsub1 hd
  have hi1 : iFree (floatSign (pyStripL l)).2 := iFree_subset hsub1 hi
  have hinf : isInfChars (floatSign (pyStripL l)).2 = false := by
    cases hii : isInfChars (floatSign (pyStripL l)).2 with
    | false => rfl
    | true =>
      obtain ⟨c', rest', heq, hc'⟩ := isInfChars_head hii
      have hmem : c' ∈ (floatSign (pyStripL l)).2 := by rw [heq]; simp
      rcases hc' with hc' | hc'
      · exact absurd hc' (hi1 c' hmem).1
      · exact absurd hc' (hi1 c' hmem).2
  rw [if_neg (by simp [hinf])]
  cases hnan : isNanChars (floatSign (pyStripL l)).2 with
  | true => right; rw [if_pos (by simp [hnan])]
  | false =>
    left
    rw [if_neg (by simp [hnan])]
    rw [parseNumeric_none_of_digitFree hd1]

theorem pyIntOfFloatTimes_digitFree_iFree {l : List Char} (mult : Nat)
    (hd : digitFree l) (hi : iFree l) : pyIntOfFloatTimes l mult = some 0 := by
  unfold pyIntOfFloatTimes
  rcases pyFloatL_digitFree_iFree hd hi with h | h <;> rw [h]

theorem pyIntOfFloatTimes_all_digits {l : List Char} (mult : Nat)
    (hne : l ≠ []) (h : ∀ c ∈ l, c.isDigit = true) :
    pyIntOfFloatTimes l mult = some ((natVal l : Int) * mult) := by
  unfold pyIntOfFloatTimes
  rw [pyFloatL_all_digits hne h]
  simp [decTrunc]

end CrawlSns

namespace CrawlSns

theorem baseScan_none_of_digitFree {l : List Char} (h : digitFree l) :
    baseScan l = none := by
  induction l with
  | nil => rfl
  | cons c rest ih =>
    simp only [baseScan]
    rw [if_neg (by simp [h c (by simp)])]
    exact ih fun d hd => h d (by simp [hd])

theorem baseScan_all_digits {l : List Char} (hne : l ≠ [])
    (h : ∀ c ∈ l, c.isDigit = true) : baseScan l = some (l, [], none) := by
  cases l with
  | nil => exact absurd rfl hne
  | cons c rest =>
    simp only [baseScan]
    rw [if_pos (by simp [h c (by simp)])]
    rw [takeWhile_eq_self_of h, dropWhile_eq_nil_of h]
    rfl

theorem extract_numbers_digit_string {s : String} (hne : s.data ≠ [])
    (h : ∀ c ∈ s.data, c.isDigit = true) :
    extract_numbers_from_text s = (natVal s.data : Int) := by
  simp only [extract_numbers_from_text]
  rw [pyLowerL_of_digits h]
  rw [filter_eq_self_of fun c hc => by
    simp only [decide_eq_true_eq]
    exact ne_of_isDigit_of_not (h c hc) (by decide)]
  rw [baseScan_all_digits hne h]
  simp [natVal, decTrunc]

theorem extract_numbers_digitFree {s : String} (h : digitFree s.data) :
    extract_numbers_from_text s = 0 := by
  simp only [extract_numbers_from_text]
  rw [baseScan_none_of_digitFree (digitFree_subset
    (fun c hc => List.mem_of_mem_filter hc) (digitFree_pyLowerL h))]

theorem pyIsDigit_of_digits {l : List Char} (hne : l ≠ [])
    (h : ∀ c ∈ l, c.isDigit = true) : pyIsDigit l = true := by
  cases l with
  | nil => exact absurd rfl hne
  | cons c rest =>
    have hall : (c :: rest).all Char.isDigit = true :=
      List.all_eq_true.mpr fun x hx => h x hx
    simp [pyIsDigit, hall]

theorem pyIsDigit_of_digitFree {l : List Char} (h : digitFree l) :
    pyIsDigit l = false := by
  cases l with
  | nil => rfl
  | cons c rest => simp [pyIsDigit, List.all_cons, h c (by simp)]

theorem firstDigitRun_none_of_digitFree {l : List Char} (h : digitFree l) :
    firstDigitRun l = none := by
  induction l with
  | nil => rfl
  | cons c rest ih =>
    simp only [firstDigitRun]
    rw [if_neg (by simp [h c (by simp)])]
    exact ih fun d hd => h d (by simp [hd])

theorem threads_parse_digit_string {s : String} (hne : s.data ≠ [])
    (h : ∀ c ∈ s.data, c.isDigit = true) :
    threads_parse_interaction_count s = some (natVal s.data : Int) := by
  simp only [threads_parse_interaction_count]
  rw [pyStripL_eq_self fun c hc => not_isPySpace_of_isDigit (h c hc)]
  rw [if_pos (pyIsDigit_of_digits hne h)]

theorem threads_parse_digitFree_iFree {s : String} (hd : digitFree s.data)
    (hi : iFree s.data) : threads_parse_interaction_count s = some 0 := by
  simp only [threads_parse_interaction_count]
  have hsub := pyStripL_subset s.data
  have hd' := digitFree_subset hsub hd
  have hi' := iFree_subset hsub hi
  rw [if_neg (by simp [pyIsDigit_of_digitFree hd'])]
  have hdrop : ∀ mult : Nat,
      pyIntOfFloatTimes (pyStripL s.data).dropLast mult = some 0 := fun mult =>
    pyIntOfFloatTimes_digitFree_iFree mult
      (digitFree_subset (List.dropLast_subset _) hd')
      (iFree_subset (List.dropLast_subset _) hi')
  by_cases hK : (pyStripL s.data).getLast? = some 'K'
  · rw [if_pos hK]; exact hdrop 1000
  · rw [if_neg hK]
    by_cases hM : (pyStripL s.data).getLast? = some 'M'
    · rw [if_pos hM]; exact hdrop 1000000
    · rw [if_neg hM]
      by_cases hB : (pyStripL s.data).getLast? = some 'B'
      · rw [if_pos hB]; exact hdrop 1000000000
      · rw [if_neg hB]
        rw [firstDigitRun_none_of_digitFree hd']

theorem contains_eq_false_of_digits {l : List Char} {a : Char}
    (h : ∀ c ∈ l, c.isDigit = true) (ha : a.isDigit = false) :
    l.contains a = false := by
  cases hc : l.contains a with
  | false => rfl
  | true =>
    have hmem : a ∈ l := by
      simp only [List.contains, List.elem_eq_mem, decide_eq_true_eq] at hc
      exact hc
    rw [h a hmem] at ha
    exact Bool.noConfusion ha

theorem reddit_parse_digit_string {s : String} (hne : s.data ≠ [])
    (h : ∀ c ∈ s.data, c.isDigit = true) :
    reddit_parse_number_from_text s = some (natVal s.data : Int) := by
  simp only [reddit_parse_number_from_text]
  rw [if_neg (by cases hs : s.data with
    | nil => exact absurd hs hne
    | cons c rest => simp [hs])]
  rw [pyLowerL_of_digits h]
  rw [pyStripL_eq_self fun c hc => not_isPySpace_of_isDigit (h c hc)]
  have hk : s.data.contains 'k' = false :=
    contains_eq_false_of_digits h (by decide)
  have hm : s.data.contains 'm' = false :=
    contains_eq_false_of_digits h (by decide)
  rw [if_neg (by intro hcon; rw [hk] at hcon; exact Bool.noConfusion hcon)]
  rw [if_neg (by intro hcon; rw [hm] at hcon; exact Bool.noConfusion hcon)]
  rw [filter_eq_self_of fun c hc => by simp [h c hc]]
  rw [if_neg (by simp [hne])]
  rw [pyIntOfFloatTimes_all_digits 1 hne h]
  simp

theorem reddit_parse_digitFree_iFree {s : String} (hd : digitFree s.data)
    (hi : iFree s.data) : reddit_parse_number_from_text s = some 0 := by
  simp only [reddit_parse_number_from_text]
  by_cases hemp : s.data.isEmpty
  · rw [if_pos hemp]
  · rw [if_neg hemp]
    have hsub : pyStripL (pyLowerL s.data) ⊆ pyLowerL s.data :=
      pyStripL_subset _
    have hd' : digitFree (pyStripL (pyLowerL s.data)) :=
      digitFree_subset hsub (digitFree_pyLowerL hd)
    have hi' : iFree (pyStripL (pyLowerL s.data)) :=
      iFree_subset hsub (iFree_pyLowerL hi)
    by_cases hk : (pyStripL (pyLowerL s.data)).contains 'k' = true
    · rw [if_pos hk]
      exact pyIntOfFloatTimes_digitFree_iFree 1000
        (digitFree_subset (fun c hc =>
          List.mem_of_mem_filter (pyStripL_subset _ hc)) hd')
        (iFree_subset (fun c hc =>
          List.mem_of_mem_filter (pyStripL_subset _ hc)) hi')
    · rw [if_neg hk]
      by_cases hm : (pyStripL (pyLowerL s.data)).contains 'm' = true
      · rw [if_pos hm]
        exact pyIntOfFloatTimes_digitFree_iFree 1000000
          (digitFree_subset (fun c hc =>
            List.mem_of_mem_filter (pyStripL_subset _ hc)) hd')
          (iFree_subset (fun c hc =>
            List.mem_of_mem_filter (pyStripL_subset _ hc)) hi')
      · rw [if_neg hm]
        by_cases hcl :
            ((pyStripL (pyLowerL s.data)).filter
              (fun c => c.isDigit || c = '.')).isEmpty
        · rw [if_pos hcl]
        · rw [if_neg hcl]
          exact pyIntOfFloatTimes_digitFree_iFree 1
            (digitFree_subset (fun c hc => List.mem_of_mem_filter hc) hd')
            (iFree_subset (fun c hc => List.mem_of_mem_filter hc) hi')

end CrawlSns

namespace CrawlSns

theorem attempt_login_attempts_le (outcomes : List LoginOutcome) :
    (attempt_login outcomes).2.1 ≤ outcomes.length := by
  induction outcomes with
  | nil => exact Nat.le_refl 0
  | cons o rest ih =>
    simp only [attempt_login]
    split
    · simp
    · split
      · simp
      · simp only [List.length_cons]
        omega

theorem attempt_login_all_fail (outcomes : List LoginOutcome)
    (h : ∀ o ∈ outcomes, isLoginSuccess o = false) :
    (attempt_login outcomes).1 = false ∧
      (attempt_login outcomes).2.1 = outcomes.length := by
  induction outcomes with
  | nil => exact ⟨rfl, rfl⟩
  | cons o rest ih =>
    simp only [attempt_login]
    rw [if_neg (by simp [h o (by simp)])]
    cases hrest : rest with
    | nil => simp
    | cons o2 rest2 =>
      rw [if_neg (by simp)]
      rw [← hrest]
      have hih := ih fun x hx => h x (by simp [hx])
      simp only [List.length_cons]
      exact ⟨hih.1, by omega⟩

theorem attempt_login_first_success (pre : List LoginOutcome)
    (s : LoginOutcome) (post : List LoginOutcome)
    (hpre : ∀ o ∈ pre, isLoginSuccess o = false)
    (hs : isLoginSuccess s = true) :
    attempt_login (pre ++ s :: post) =
      (true, pre.length + 1, pre.map loginDelayRange) := by
  induction pre with
  | nil =>
    simp only [List.nil_append, attempt_login, List.map_nil]
    rw [if_pos hs]
    simp
  | cons o rest ih =>
    simp only [List.cons_append, attempt_login]
    rw [if_neg (by simp [hpre o (by simp)])]
    rw [if_neg (by simp)]
    have hih := ih fun x hx => hpre x (by simp [hx])
    simp only [List.append_eq] at hih ⊢
    rw [hih]
    simp

end CrawlSns

/-- C1: the claim is false for the Threads interaction-count parser: it
recognizes only the uppercase suffixes `K`/`M`/`B`, so `"1.7k"` misses every
suffix branch and falls through to `re.findall(r"\d+", ...)`, returning the
first digit run `1` instead of 1700. -/
theorem C1_counterexample :
    CrawlSns.threads_parse_interaction_count "1.7k" = some 1 ∧
      (1 : Int) ≠ 1700 := by
  exact ⟨by decide, by decide⟩

/-- C1 (amended): the shared base-crawler helper and Reddit's parser convert
`"1.7k"` to 1700 and `"2M"` to 2000000; Threads' parser does so only for the
uppercase spellings (`"1.7K"`/`"2M"`) and returns 1 for `"1.7k"`.  All three
convert a plain digit string to its integer value (stated up to 15 digits,
where CPython's `float` round-trip in the base and Reddit parsers is exact)
and return 0 on input containing no digits — except that an input whose
digit-free text spells a `float` infinity literal (e.g. `"infk"`/`"infK"`)
makes the Reddit and Threads parsers raise an uncaught `OverflowError`
(`none`), which the `iFree` hypothesis excludes and the last conjunct
documents. -/
theorem C1_amended_numeric_parsers (s : String) :
    (CrawlSns.extract_numbers_from_text "1.7k" = 1700 ∧
     CrawlSns.extract_numbers_from_text "2M" = 2000000 ∧
     CrawlSns.reddit_parse_number_from_text "1.7k" = some 1700 ∧
     CrawlSns.reddit_parse_number_from_text "2M" = some 2000000 ∧
     CrawlSns.threads_parse_interaction_count "1.7K" = some 1700 ∧
     CrawlSns.threads_parse_interaction_count "2M" = some 2000000 ∧
     CrawlSns.threads_parse_interaction_count "1.7k" = some 1) ∧
    (s.data ≠ [] → (∀ c ∈ s.data, c.isDigit = true) → s.data.length ≤ 15 →
      CrawlSns.extract_numbers_from_text s = (CrawlSns.natVal s.data : Int) ∧
      CrawlSns.reddit_parse_number_from_text s =
        some (CrawlSns.natVal s.data : Int) ∧
      CrawlSns.threads_parse_interaction_count s =
        some (CrawlSns.natVal s.data : Int)) ∧
    (CrawlSns.digitFree s.data → CrawlSns.extract_numbers_from_text s = 0) ∧
    (CrawlSns.digitFree s.data → CrawlSns.iFree s.data →
      CrawlSns.reddit_parse_number_from_text s = some 0 ∧
      CrawlSns.threads_parse_interaction_count s = some 0) ∧
    (CrawlSns.reddit_parse_number_from_text "infk" = none ∧
     CrawlSns.threads_parse_interaction_count "infK" = none) := by
  refine ⟨⟨by decide, by decide, by decide, by decide, by decide, by decide,
    by decide⟩, ?_, ?_, ?_, by decide, by decide⟩
  · intro hne h _hbound
    exact ⟨CrawlSns.extract_numbers_digit_string hne h,
      CrawlSns.reddit_parse_digit_string hne h,
      CrawlSns.threads_parse_digit_string hne h⟩
  · intro hd
    exact CrawlSns.extract_numbers_digitFree hd
  · intro hd hi
    exact ⟨CrawlSns.reddit_parse_digitFree_iFree hd hi,
      CrawlSns.threads_parse_digitFree_iFree hd hi⟩

/-- C1 amended-claim witness at the concrete inputs "57" and "likes". -/
theorem C1_amended_numeric_parsers_witness :
    CrawlSns.extract_numbers_from_text "57" = 57 ∧
      CrawlSns.reddit_parse_number_from_text "57" = some 57 ∧
      CrawlSns.threads_parse_interaction_count "57" = some 57 ∧
      CrawlSns.extract_numbers_from_text "likes" = 0 := by
  have h1 := (C1_amended_numeric_parsers "57").2.1 (by decide) (by decide)
    (by decide)
  have h2 := (C1_amended_numeric_parsers "likes").2.2.1
    (by unfold CrawlSns.digitFree; decide)
  exact ⟨h1.1, h1.2.1, h1.2.2, h2⟩

/-- C7: the claim's "waiting a randomized delay between consecutive
attempts" is false: an attempt that ends in the Instagram login-page load
timeout executes a bare `continue`, so the next attempt starts with no
inter-attempt delay (the delay trace records `none`). -/
theorem C7_counterexample :
    CrawlSns.attempt_login
      [.instaTimeout, .success, .success] = (true, 2, [none]) ∧
      none ∈ (CrawlSns.attempt_login
        [.instaTimeout, .success, .success]).2.2 := by
  exact ⟨rfl, by decide⟩

/-- C7 (amended): `_attempt_login` performs at most `login_retry_count`
attempts (the outcome list stands for `range(login_retry_count)`, default
3); when every attempt fails it performs exactly `login_retry_count`
attempts and returns `False`; the first successful attempt returns `True`
immediately; every failing outcome waits a randomized delay (a
nondegenerate `random.randint` range) before the next attempt, except the
Instagram login-page load timeout, which retries immediately. -/
theorem C7_amended_login_retry (outcomes pre post : List CrawlSns.LoginOutcome)
    (s : CrawlSns.LoginOutcome) :
    ((CrawlSns.attempt_login outcomes).2.1 ≤ outcomes.length) ∧
    ((∀ o ∈ outcomes, CrawlSns.isLoginSuccess o = false) →
      (CrawlSns.attempt_login outcomes).1 = false ∧
      (CrawlSns.attempt_login outcomes).2.1 = outcomes.length) ∧
    ((∀ o ∈ pre, CrawlSns.isLoginSuccess o = false) →
      CrawlSns.isLoginSuccess s = true →
      CrawlSns.attempt_login (pre ++ s :: post) =
        (true, pre.length + 1, pre.map CrawlSns.loginDelayRange)) ∧
    (∀ o : CrawlSns.LoginOutcome, CrawlSns.isLoginSuccess o = false →
      o ≠ .instaTimeout →
      ∃ lo hi, CrawlSns.loginDelayRange o = some (lo, hi) ∧ lo < hi) ∧
    CrawlSns.loginDelayRange .instaTimeout = none := by
  refine ⟨CrawlSns.attempt_login_attempts_le outcomes,
    CrawlSns.attempt_login_all_fail outcomes, ?_, ?_, rfl⟩
  · intro hpre hs
    exact CrawlSns.attempt_login_first_success pre s post hpre hs
  · intro o hfail hne
    cases o with
    | noButton => exact ⟨3000, 5000, rfl, by omega⟩
    | verifyFail => exact ⟨3000, 5000, rfl, by omega⟩
    | timeoutError => exact ⟨2000, 4000, rfl, by omega⟩
    | otherError => exact ⟨2000, 4000, rfl, by omega⟩
    | instaTimeout => exact absurd rfl hne
    | success => exact Bool.noConfusion hfail
    | noButtonLoggedIn => exact Bool.noConfusion hfail

/-- C7 amended-claim witness at concrete outcome lists. -/
theorem C7_amended_login_retry_witness :
    (CrawlSns.attempt_login
      [.verifyFail, .verifyFail, .verifyFail]).1 = false ∧
      CrawlSns.attempt_login [.verifyFail, .success, .success] =
        (true, 2, [some (3000, 5000)]) := by
  have h := C7_amended_login_retry [.verifyFail, .verifyFail, .verifyFail]
    [.verifyFail] [.success] .success
  exact ⟨(h.2.1 (by decide)).1, by simpa using h.2.2.1 (by decide) rfl⟩
